import Mathlib

/-!
Verification of the RIPv2 daemon core (ripserv.py).

This file is a shallow embedding of the protocol core of the repository's
single source file, ripserv.py: the wire codec (RIPHeader, RIPRouteEntry,
RIPPacket), the route-table update rules (RIP.try_add_route,
RIP.process_response, RIP.update_route, RIP._start_garbage_collection),
the timer scans (RIP._check_route_timeouts, RIP._collect_garbage_routes),
the request handling (RIP._send_partial_response), the update emitter
(RIP.generate_update) and the jitter computation (RIP.get_update_interval).

Modelling conventions:
  - Machine integers are Nat; datagrams are lists of byte values (Nat < 256).
  - IPv4 addresses are their 32-bit integer values.
  - Mutation of the RIP object is explicit state passing on RIPState;
    calls into the host system (install_route / modify_route /
    uninstall_route) are recorded as a trace of SysAction values.
  - Timestamps (datetime.datetime.now()) are Nat parameters called now;
    timer comparisons take the computed cutoff as a parameter.
  - The source builds networks with the external ipaddr library
    (ipaddr.IPv4Network("a.b.c.d/m0.m1.m2.m3")).  That library accepts a
    dotted mask only when it is a "netmask" (every octet one of
    255,254,252,248,240,224,192,128,0 and octets non-increasing; the
    library compares the decimal octet strings lexicographically, which on
    that octet set coincides with numeric order) or a "hostmask" (every
    octet in the same set and first octet < last octet, in which case the
    mask is complemented); any other mask raises NetmaskValueError, an
    exception distinct from ripserv's FormatException.  The prefix length
    is then 32 minus the number of trailing zero bits of the resolved
    netmask (ipaddr's _prefix_from_ip_int), and the stored network carries
    the ANDed address and that prefix length.  This behaviour is embedded
    below (validMaskOctet, isValidNetmask, isHostmask, maskToNetmaskInt,
    prefixFromIpInt, setNetwork).
-/

/-- Decidable equality on Except, for evaluating decode results on
concrete datagrams. -/
instance {e a : Type} [DecidableEq e] [DecidableEq a] : DecidableEq (Except e a) := fun x y =>
  match x, y with
  | .ok u, .ok v =>
    if h : u = v then isTrue (by rw [h]) else isFalse (by intro hc; cases hc; exact h rfl)
  | .error u, .error v =>
    if h : u = v then isTrue (by rw [h]) else isFalse (by intro hc; cases hc; exact h rfl)
  | .ok _, .error _ => isFalse (by intro hc; cases hc)
  | .error _, .ok _ => isFalse (by intro hc; cases hc)

/-! ## Byte-level helpers for the wire codec -/

/-- Big-endian 16-bit read at offset i (struct.unpack of two bytes);
out-of-range indices read as 0, which never occurs on well-sized input. -/
def readU16 (l : List Nat) (i : Nat) : Nat :=
  l.getD i 0 * 256 + l.getD (i + 1) 0

/-- Big-endian 32-bit read at offset i (struct.unpack of four bytes). -/
def readU32 (l : List Nat) (i : Nat) : Nat :=
  ((l.getD i 0 * 256 + l.getD (i + 1) 0) * 256 + l.getD (i + 2) 0) * 256
    + l.getD (i + 3) 0

/-- Big-endian 16-bit serialization (struct.pack of a u16 field). -/
def toB16 (n : Nat) : List Nat := [n / 256 % 256, n % 256]

/-- Big-endian 32-bit serialization (struct.pack of a u32 field). -/
def toB32 (n : Nat) : List Nat :=
  [n / 16777216 % 256, n / 65536 % 256, n / 256 % 256, n % 256]

/-- Convenience constructor for a 32-bit IPv4 address from dotted quad. -/
def ipv4 (a b c d : Nat) : Nat := ((a * 256 + b) * 256 + c) * 256 + d

/-! ## The ipaddr library's mask handling (external dependency of ripserv) -/

/-- The octet values ipaddr accepts in a netmask or hostmask
(ipaddr._valid_mask_octets). -/
def validMaskOctet (o : Nat) : Bool :=
  o == 255 || o == 254 || o == 252 || o == 248 || o == 240 || o == 224 ||
  o == 192 || o == 128 || o == 0

/-- ipaddr._is_valid_netmask on the dotted quad of the 32-bit mask m:
all octets valid and (numerically, equivalently lexicographically on the
valid octet set) non-increasing. -/
def isValidNetmask (m : Nat) : Bool :=
  let o0 := m / 16777216 % 256
  let o1 := m / 65536 % 256
  let o2 := m / 256 % 256
  let o3 := m % 256
  validMaskOctet o0 && validMaskOctet o1 && validMaskOctet o2 &&
  validMaskOctet o3 && o1 ≤ o0 && o2 ≤ o1 && o3 ≤ o2

/-- ipaddr._is_hostmask on the dotted quad of the 32-bit mask m:
all octets valid and first octet strictly below the last. -/
def isHostmask (m : Nat) : Bool :=
  let o0 := m / 16777216 % 256
  let o1 := m / 65536 % 256
  let o2 := m / 256 % 256
  let o3 := m % 256
  validMaskOctet o0 && validMaskOctet o1 && validMaskOctet o2 &&
  validMaskOctet o3 && o0 < o3

/-- Resolution of the wire mask field to ipaddr's netmask integer: a valid
netmask is used as is, a hostmask is complemented (XOR with all ones), and
anything else raises NetmaskValueError (modelled as none). -/
def maskToNetmaskInt (m : Nat) : Option Nat :=
  if isValidNetmask m then some m
  else if isHostmask m then some (4294967295 - m)
  else none

/-- ipaddr._prefix_from_ip_int: scans at most 32 low bits, returning the
remaining count when the first set bit is found (0 for the zero mask). -/
def prefixFromIpIntAux : Nat → Nat → Nat
  | 0, _ => 0
  | k + 1, m => if m % 2 == 1 then k + 1 else prefixFromIpIntAux k (m / 2)

/-- Prefix length ipaddr derives from a netmask integer. -/
def prefixFromIpInt (m : Nat) : Nat := prefixFromIpIntAux 32 m

/-- The contiguous netmask of a prefix length (the netmask ipaddr stores
for a network built from "addr/prefixlen"). -/
def contigMask (p : Nat) : Nat := 4294967296 - 2 ^ (32 - p)

/-! ## Data model -/

/-- RIPHeader: command and version (the reserved u16 is checked on decode
and emitted as zero on encode, not stored). -/
structure RIPHeaderS where
  cmd : Nat
  ver : Nat
  deriving Repr, DecidableEq

/-- The stored network of a route entry, as ripserv's
RIPRouteEntry.set_network leaves it: ip is the wire address ANDed with the
ipaddr-resolved netmask, prefixlen the ipaddr-derived prefix length.
The stored netmask is contigMask prefixlen. -/
structure IPv4NetworkS where
  ip : Nat
  prefixlen : Nat
  deriving Repr, DecidableEq

/-- RIPRouteEntry: wire fields plus the in-memory bookkeeping flags set by
the constructor and mutated by the RIP protocol engine. -/
structure RIPRouteEntryS where
  afi : Nat
  tag : Nat
  network : IPv4NetworkS
  nexthop : Nat
  metric : Nat
  changed : Bool
  garbage : Bool
  imported : Bool
  marked_for_deletion : Bool
  timeout : Option Nat
  deriving Repr, DecidableEq

/-- RIPPacket: a header and the decoded route entries. -/
structure RIPPacketS where
  hdr : RIPHeaderS
  rtes : List RIPRouteEntryS
  deriving Repr, DecidableEq

/-- RIPRouteEntry.MAX_METRIC. -/
def MAX_METRIC : Nat := 16

/-- RIP.JITTER_VALUE. -/
def JITTER_VALUE : Nat := 2

/-- RIP.MAX_ROUTES_PER_UPDATE. -/
def MAX_ROUTES_PER_UPDATE : Nat := 25

/-- Failure modes of packet decoding: ripserv's FormatException, and the
NetmaskValueError ipaddr raises for an unacceptable mask field (the latter
is not caught by RIP.datagramReceived). -/
inductive DecodeError where
  | formatError
  | netmaskError
  deriving Repr, DecidableEq

/-- Calls ripserv makes into the host system (sysiface), recorded as a
trace: install_route(net, prefixlen, metric, nexthop), modify_route
(identified by the route's network address), uninstall_route. -/
inductive SysAction where
  | install : Nat → Nat → Nat → Nat → SysAction
  | modify : Nat → SysAction
  | uninstall : Nat → Nat → SysAction
  deriving Repr, DecidableEq

/-- The mutable state of the RIP object that the claims concern:
the route list self._routes, self._route_change and self._gc_started. -/
structure RIPState where
  routes : List RIPRouteEntryS
  route_change : Bool
  gc_started : Bool
  deriving Repr, DecidableEq

/-- The route table of a freshly constructed RIP object. -/
def emptyState : RIPState := { routes := [], route_change := false, gc_started := false }

/-- A logical interface: its IPv4 address and the prefix length of its
subnet (iface.ip in the source is the address with its network). -/
structure IfaceS where
  ipAddr : Nat
  prefixlen : Nat
  deriving Repr, DecidableEq

/-! ## Wire codec -/

/-- RIPRouteEntry.set_network (via ipaddr): returns none when ipaddr
raises NetmaskValueError for the mask, otherwise the stored network. -/
def setNetwork (address mask : Nat) : Option IPv4NetworkS :=
  match maskToNetmaskInt mask with
  | none => none
  | some nm => some { ip := address &&& nm, prefixlen := prefixFromIpInt nm }

/-- RIPRouteEntry._init_from_net on one 20-byte slice: unpack the six
fields, substitute the datagram source for a zero nexthop, build the
network (ipaddr may raise), then validate the metric range.  The
constructor has already set changed/garbage/marked_for_deletion to false,
imported to false and the timeout to the current time. -/
def rteFromNet (slice : List Nat) (srcIp now : Nat) : Except DecodeError RIPRouteEntryS :=
  match setNetwork (readU32 slice 4) (readU32 slice 8) with
  | none => .error .netmaskError
  | some nw =>
    if readU32 slice 16 ≤ MAX_METRIC then
      .ok { afi := readU16 slice 0, tag := readU16 slice 2, network := nw,
            nexthop := if readU32 slice 12 = 0 then srcIp else readU32 slice 12,
            metric := readU32 slice 16, changed := false, garbage := false,
            imported := false, marked_for_deletion := false,
            timeout := some now }
    else .error .formatError

/-- RIPHeader._init_from_net on the 4-byte header slice: the reserved
u16 must be zero; cmd and ver are taken from the first two bytes with no
validation. -/
def headerFromNet (slice : List Nat) : Except DecodeError RIPHeaderS :=
  if readU16 slice 2 ≠ 0 then .error .formatError
  else .ok { cmd := slice.getD 0 0, ver := slice.getD 1 0 }

/-- The RTE decoding loop of RIPPacket._init_from_net: n slices of 20
bytes, in order; the first failing slice determines the error. -/
def decodeRtes (srcIp now : Nat) : Nat → List Nat → Except DecodeError (List RIPRouteEntryS)
  | 0, _ => .ok []
  | n + 1, rest =>
    match rteFromNet (rest.take 20) srcIp now with
    | .error e => .error e
    | .ok r =>
      match decodeRtes srcIp now n (rest.drop 20) with
      | .error e => .error e
      | .ok rs => .ok (r :: rs)

/-- RIPPacket._init_from_net: length checks, then the header, then the
route entries. -/
def packetFromNet (data : List Nat) (srcIp now : Nat) : Except DecodeError RIPPacketS :=
  if data.length < 4 then .error .formatError
  else if (data.length - 4) % 20 ≠ 0 then .error .formatError
  else
    match headerFromNet (data.take 4) with
    | .error e => .error e
    | .ok hdr =>
      match decodeRtes srcIp now ((data.length - 4) / 20) (data.drop 4) with
      | .error e => .error e
      | .ok rtes => .ok { hdr := hdr, rtes := rtes }

/-- The per-entry decodability condition: ipaddr accepts the mask field
and the metric is in range. -/
def entryOK (slice : List Nat) : Prop :=
  (maskToNetmaskInt (readU32 slice 8)).isSome = true ∧ readU32 slice 16 ≤ MAX_METRIC

instance (slice : List Nat) : Decidable (entryOK slice) := by
  unfold entryOK
  infer_instance

/-- RIPHeader.serialize: struct.pack(">BBH", cmd, ver, 0). -/
def serializeHeader (h : RIPHeaderS) : List Nat := [h.cmd, h.ver, 0, 0]

/-- RIPRouteEntry.serialize: struct.pack(">HHIIII", afi, tag,
network.network, network.netmask, nexthop, metric); the stored network's
netmask is the contiguous mask of its prefix length and its network
address is the ip ANDed with it. -/
def serializeRte (r : RIPRouteEntryS) : List Nat :=
  toB16 r.afi ++ toB16 r.tag ++
  toB32 (r.network.ip &&& contigMask r.network.prefixlen) ++
  toB32 (contigMask r.network.prefixlen) ++
  toB32 r.nexthop ++ toB32 r.metric

/-- RIPPacket.serialize: the header followed by every RTE. -/
def serializePacket (p : RIPPacketS) : List Nat :=
  serializeHeader p.hdr ++ (p.rtes.map serializeRte).flatten

/-! ## Route table operations -/

/-- The comparison RIP.get_route makes against a stored route: the
network address and the stored (contiguous) netmask. -/
def routePred (net mask : Nat) (rt : RIPRouteEntryS) : Bool :=
  rt.network.ip == net && contigMask rt.network.prefixlen == mask

/-- RIP.get_route: first route matching (network, netmask). -/
def getRoute (routes : List RIPRouteEntryS) (net mask : Nat) : Option RIPRouteEntryS :=
  routes.find? (routePred net mask)

/-- In-place mutation of the first route matching p, as the source's
aliasing of get_route's result achieves. -/
def modifyFirst (l : List RIPRouteEntryS) (p : RIPRouteEntryS → Bool)
    (f : RIPRouteEntryS → RIPRouteEntryS) : List RIPRouteEntryS :=
  match l with
  | [] => []
  | x :: xs => if p x then f x :: xs else x :: modifyFirst xs p f

/-- The per-route effect of RIP._start_garbage_collection (minus the
early return for a route already on GC, handled by the caller): set
changed and garbage, reset the timeout, force the metric to 16. -/
def startGCEntry (now : Nat) (rt : RIPRouteEntryS) : RIPRouteEntryS :=
  { rt with changed := true, garbage := true,
            timeout := if rt.imported then none else some now,
            metric := MAX_METRIC }

/-- RIP._start_garbage_collection applied to the first route matching p
(the aliased bestroute): no-op when the route is already on GC, else the
GC transition plus modify_route, the route-change flag and the one-shot
GC timer flag. -/
def startGarbageCollectionFirst (st : RIPState) (p : RIPRouteEntryS → Bool)
    (now : Nat) : RIPState × List SysAction :=
  match st.routes.find? p with
  | none => (st, [])
  | some best =>
    if best.garbage then (st, [])
    else
      ({ st with routes := modifyFirst st.routes p (startGCEntry now),
                 route_change := true, gc_started := true },
       [SysAction.modify best.network.ip])

/-- The per-route effect of RIP.update_route on the aliased old route:
reset timeout, clear garbage, set changed, copy metric and nexthop from
the received entry. -/
def updateRouteEntry (newrt : RIPRouteEntryS) (now : Nat)
    (old : RIPRouteEntryS) : RIPRouteEntryS :=
  { old with timeout := if old.imported then none else some now,
             garbage := false, changed := true,
             metric := newrt.metric, nexthop := newrt.nexthop }

/-- RIP.try_add_route: look up the best route by (network, netmask),
unconditionally overwrite the received entry's nexthop with the datagram
source, then branch per RFC 2453 section 3.9.2 as the source does. -/
def tryAddRoute (st : RIPState) (rte0 : RIPRouteEntryS) (host : Nat)
    (install : Bool) (now : Nat) : RIPState × List SysAction :=
  let net := rte0.network.ip
  let mask := contigMask rte0.network.prefixlen
  let rte := { rte0 with nexthop := host }
  match getRoute st.routes net mask with
  | none =>
    if rte.metric = MAX_METRIC then (st, [])
    else
      let rte1 := { rte with changed := true }
      let st1 := { st with routes := st.routes ++ [rte1] }
      if install = false then (st1, [])
      else
        ({ st1 with route_change := true },
         [SysAction.install net rte1.network.prefixlen rte1.metric rte1.nexthop])
  | some best =>
    if rte.nexthop = best.nexthop then
      if best.metric ≠ rte.metric then
        if best.metric ≠ MAX_METRIC ∧ MAX_METRIC ≤ rte.metric then
          startGarbageCollectionFirst st (routePred net mask) now
        else
          ({ st with routes := modifyFirst st.routes (routePred net mask)
                                 (updateRouteEntry rte now),
                     route_change := true },
           [SysAction.modify best.network.ip])
      else if best.garbage = false then
        ({ st with routes := modifyFirst st.routes (routePred net mask)
                     (fun old => { old with
                        timeout := if old.imported then none else some now }) },
         [])
      else (st, [])
    else if rte.metric < best.metric then
      ({ st with routes := modifyFirst st.routes (routePred net mask)
                             (updateRouteEntry rte now),
                 route_change := true },
       [SysAction.modify best.network.ip])
    else (st, [])

/-- The entry loop of RIP.process_response: bump each metric to
min(metric + 1, 16) and feed it to try_add_route with the datagram source
as the host.  (The trailing handle_route_change only schedules a
triggered update, modelled separately by generateUpdate.) -/
def processResponse (st : RIPState) (rtes : List RIPRouteEntryS)
    (host now : Nat) : RIPState × List SysAction :=
  match rtes with
  | [] => (st, [])
  | rte :: rest =>
    let rte1 := { rte with metric := min (rte.metric + 1) MAX_METRIC }
    let p1 := tryAddRoute st rte1 host true now
    let p2 := processResponse p1.1 rest host now
    (p2.1, p1.2 ++ p2.2)

/-- A route's timeout is older than the cutoff computed by
RIP._act_on_routes_before_time (routes with no timeout never qualify). -/
def timedOut (beforeTime : Nat) (rt : RIPRouteEntryS) : Bool :=
  match rt.timeout with
  | none => false
  | some t => t < beforeTime

/-- The table mutation of RIP._check_route_timeouts: start garbage
collection on every non-garbage route whose timeout is older than the
cutoff (each such route triggers _start_garbage_collection, which also
sets the route-change and GC-timer flags). -/
def checkRouteTimeouts (st : RIPState) (now beforeTime : Nat) : RIPState :=
  let hits := st.routes.any (fun rt => !rt.garbage && timedOut beforeTime rt)
  { st with
    routes := st.routes.map (fun rt =>
      if rt.garbage = false ∧ timedOut beforeTime rt = true then startGCEntry now rt else rt),
    route_change := st.route_change || hits,
    gc_started := st.gc_started || hits }

/-- The table mutation of RIP._collect_garbage_routes: mark every garbage
route whose GC timer is older than the cutoff, then remove and uninstall
every marked route. -/
def collectGarbageRoutes (st : RIPState) (beforeTime : Nat) : RIPState × List SysAction :=
  let marked := st.routes.map (fun rt =>
    if rt.garbage = true ∧ timedOut beforeTime rt = true
    then { rt with marked_for_deletion := true } else rt)
  ({ st with routes := marked.filter (fun rt => rt.marked_for_deletion = false) },
   (marked.filter (fun rt => rt.marked_for_deletion = true)).map
     (fun rt => SysAction.uninstall rt.network.ip rt.network.prefixlen))

/-! ## Request handling -/

/-- RIP._send_partial_response, up to serialization: overwrite each
received entry's metric with the local metric (16 when unknown) and turn
the command into RESPONSE; the packet is then serialized and written back
to the requester. -/
def sendPartialResponse (routes : List RIPRouteEntryS) (msg : RIPPacketS) : RIPPacketS :=
  { hdr := { msg.hdr with cmd := 2 },
    rtes := msg.rtes.map (fun rt =>
      match getRoute routes rt.network.ip (contigMask rt.network.prefixlen) with
      | none => { rt with metric := MAX_METRIC }
      | some matching => { rt with metric := matching.metric }) }

/-- The three-way dispatch of RIP.process_request. -/
inductive RequestAction where
  | drop
  | wholeTable
  | specific : RIPPacketS → RequestAction
  deriving Repr, DecidableEq

/-- RIP.process_request: empty request dropped; a solitary entry with
afi 0 and metric 16 asks for the whole table; anything else is a specific
request answered by _send_partial_response. -/
def processRequest (st : RIPState) (msg : RIPPacketS) : RequestAction :=
  match msg.rtes with
  | [] => .drop
  | [rte] =>
    if rte.afi = 0 ∧ rte.metric = MAX_METRIC then .wholeTable
    else .specific (sendPartialResponse st.routes msg)
  | _ => .specific (sendPartialResponse st.routes msg)

/-! ## Update emitter -/

/-- Membership of an address in an interface's subnet
(rt.nexthop in iface.ip). -/
def inIfaceNet (addr : Nat) (ifc : IfaceS) : Bool :=
  addr &&& contigMask ifc.prefixlen == ifc.ipAddr &&& contigMask ifc.prefixlen

/-- The per-interface route loop of RIP.generate_update: split horizon
and triggered-mode skips; the temporary nexthop rewrite around
serialization (saved and restored on the in-memory entry); chunking at
MAX_ROUTES_PER_UPDATE entries.  Returns the routes as the loop leaves
them, the datagrams flushed by chunking, and the trailing buffer with its
entry count. -/
def genUpdateRoutes (ifc : IfaceS) (triggered splitHorizon : Bool) :
    List RIPRouteEntryS → List Nat → Nat →
    List RIPRouteEntryS × List (List Nat) × List Nat × Nat
  | [], msg, count => ([], [], msg, count)
  | rt :: rest, msg, count =>
    if splitHorizon = true ∧ inIfaceNet rt.nexthop ifc = true then
      let next := genUpdateRoutes ifc triggered splitHorizon rest msg count
      (rt :: next.1, next.2)
    else if triggered = true ∧ rt.changed = false then
      let next := genUpdateRoutes ifc triggered splitHorizon rest msg count
      (rt :: next.1, next.2)
    else
      let saved := rt.nexthop
      let nh := if inIfaceNet rt.nexthop ifc = true ∧ rt.nexthop ≠ ifc.ipAddr
                then rt.nexthop else 0
      let rt1 := { rt with nexthop := nh }
      let bytes := serializeRte rt1
      let rt2 := { rt1 with nexthop := saved }
      let msg1 := msg ++ bytes
      if count + 1 = MAX_ROUTES_PER_UPDATE then
        let next := genUpdateRoutes ifc triggered splitHorizon rest
          (serializeHeader { cmd := 2, ver := 2 }) 0
        (rt2 :: next.1, msg1 :: next.2.1, next.2.2)
      else
        let next := genUpdateRoutes ifc triggered splitHorizon rest msg1 (count + 1)
        (rt2 :: next.1, next.2)

/-- The interface loop of RIP.generate_update: run the route loop per
interface (the buffer restarts at the serialized RESPONSE header) and
flush the trailing buffer when it holds at least one entry. -/
def genUpdateIfaces (triggered splitHorizon : Bool) :
    List IfaceS → List RIPRouteEntryS → List RIPRouteEntryS × List (List Nat)
  | [], routes => (routes, [])
  | ifc :: rest, routes =>
    let this := genUpdateRoutes ifc triggered splitHorizon routes
      (serializeHeader { cmd := 2, ver := 2 }) 0
    let flushed := if 4 < this.2.2.1.length then this.2.1 ++ [this.2.2.1] else this.2.1
    let next := genUpdateIfaces triggered splitHorizon rest this.1
    (next.1, flushed ++ next.2)

/-- RIP.generate_update: emit per-interface datagrams; in triggered mode
clear every route's changed flag afterwards. -/
def generateUpdate (st : RIPState) (ifaces : List IfaceS)
    (triggered splitHorizon : Bool) : RIPState × List (List Nat) :=
  let out := genUpdateIfaces triggered splitHorizon ifaces st.routes
  let routes1 := if triggered then out.1.map (fun rt => { rt with changed := false })
                 else out.1
  ({ st with routes := routes1 }, out.2)

/-! ## Ingress dispatch and jitter -/

/-- Outcome of RIP.datagramReceived for a link-local, non-local source
(decode and command dispatch; FormatException is the only exception the
handler catches). -/
inductive Dispatch where
  | request
  | response
  | dropFormat
  | dropNonRipPort
  | dropUnknownCommand
  | uncaughtError
  deriving Repr, DecidableEq

/-- The decode-and-dispatch tail of RIP.datagramReceived: FormatException
is caught and the datagram dropped; ipaddr's NetmaskValueError is not
caught; a decoded packet is dispatched on its command field alone, with
the RIP-port check applied only to RESPONSE. -/
def dispatchDatagram (data : List Nat) (srcIp srcPort ripPort now : Nat) : Dispatch :=
  match packetFromNet data srcIp now with
  | .error .formatError => .dropFormat
  | .error .netmaskError => .uncaughtError
  | .ok msg =>
    if msg.hdr.cmd = 1 then .request
    else if msg.hdr.cmd = 2 then
      if srcPort ≠ ripPort then .dropNonRipPort else .response
    else .dropUnknownCommand

/-- The possible results of random.randrange(a, b): the integers k with
a ≤ k < b (the upper bound is excluded). -/
def randrangeMem (a b k : Int) : Prop := a ≤ k ∧ k < b

/-- RIP.get_update_interval as a function of the drawn jitter r:
update_timer + randrange(-JITTER_VALUE, JITTER_VALUE). -/
def getUpdateInterval (updateTimer : Nat) (r : Int) : Int :=
  (updateTimer : Int) + r

/-- d is a possible value of RIP.get_update_interval for the given
update timer. -/
def updateIntervalPossible (updateTimer : Nat) (d : Int) : Prop :=
  ∃ r : Int, randrangeMem (-(JITTER_VALUE : Int)) (JITTER_VALUE : Int) r ∧
    d = getUpdateInterval updateTimer r

/-! ## Concrete datagrams for evaluation -/

/-- A well-sized single-entry RESPONSE datagram with zero reserved field
and metric 1, whose mask field 255.0.255.0 is neither a netmask nor a
hostmask for ipaddr. -/
def c5BadMaskData : List Nat :=
  [2, 2, 0, 0,  0, 2, 0, 0,  192, 168, 1, 0,  255, 0, 255, 0,  10, 0, 0, 3,  0, 0, 0, 1]

/-- A well-formed single-entry RESPONSE datagram (mask 255.255.255.0,
metric 1). -/
def c5GoodData : List Nat :=
  [2, 2, 0, 0,  0, 2, 0, 0,  192, 168, 1, 0,  255, 255, 255, 0,  10, 0, 0, 3,  0, 0, 0, 1]

/-- A well-sized datagram with zero reserved field and in-range metric
whose mask field ipaddr rejects (dispatch evaluation input). -/
def c10BadMaskData : List Nat :=
  [2, 2, 0, 0,  0, 2, 0, 0,  192, 168, 1, 0,  255, 0, 255, 0,  10, 0, 0, 3,  0, 0, 0, 1]

/-- The 20 bytes after the header of a well-formed single-entry datagram
(dispatch evaluation input). -/
def c10GoodRest : List Nat :=
  [0, 2, 0, 0,  192, 168, 1, 0,  255, 255, 255, 0,  10, 0, 0, 3,  0, 0, 0, 1]

/-- A RESPONSE datagram whose entry carries the nonzero wire nexthop
10.0.0.3, received from source 10.0.0.2. -/
def c1Data : List Nat :=
  [2, 2, 0, 0,  0, 2, 0, 0,  192, 168, 1, 0,  255, 255, 255, 0,  10, 0, 0, 3,  0, 0, 0, 1]

/-- The entry c1Data decodes to: the wire nexthop 10.0.0.3 is preserved by
ingress canonicalization. -/
def c1Entry : RIPRouteEntryS :=
  { afi := 2, tag := 0, network := { ip := ipv4 192 168 1 0, prefixlen := 24 },
    nexthop := ipv4 10 0 0 3, metric := 1, changed := false, garbage := false,
    imported := false, marked_for_deletion := false, timeout := some 0 }

/-- A RESPONSE datagram whose 20-byte entry has afi 0xFFFF (the
authentication marker) and otherwise decodable fields. -/
def c2AuthData : List Nat :=
  [2, 2, 0, 0,  255, 255, 0, 0,  192, 168, 1, 0,  255, 255, 255, 0,  0, 0, 0, 0,  0, 0, 0, 1]

/-- The route entry c2AuthData decodes to, afi 0xFFFF included. -/
def c2AuthEntry : RIPRouteEntryS :=
  { afi := 65535, tag := 0, network := { ip := ipv4 192 168 1 0, prefixlen := 24 },
    nexthop := ipv4 10 0 0 2, metric := 1, changed := false, garbage := false,
    imported := false, marked_for_deletion := false, timeout := some 0 }

/-- A specific (non-whole-table) REQUEST datagram whose entry has the
wire nexthop 0.0.0.0. -/
def c3RequestData : List Nat :=
  [1, 2, 0, 0,  0, 2, 0, 0,  10, 1, 0, 0,  255, 255, 0, 0,  0, 0, 0, 0,  0, 0, 0, 7]

/-- The packet c3RequestData decodes to when received from 10.0.0.2: the
zero wire nexthop has already been replaced by the source. -/
def c3Packet : RIPPacketS :=
  { hdr := ⟨1, 2⟩,
    rtes := [{ afi := 2, tag := 0, network := { ip := ipv4 10 1 0 0, prefixlen := 16 },
               nexthop := ipv4 10 0 0 2, metric := 7, changed := false, garbage := false,
               imported := false, marked_for_deletion := false, timeout := some 0 }] }

/-- A 20-byte entry slice with zero wire nexthop, for evaluating the
ingress canonicalization facts. -/
def c3WitnessSlice : List Nat :=
  [0, 2, 0, 0,  10, 1, 0, 0,  255, 255, 0, 0,  0, 0, 0, 0,  0, 0, 0, 7]

/-- The entry c3WitnessSlice decodes to when received from 10.0.0.2. -/
def c3WitnessEntry : RIPRouteEntryS :=
  { afi := 2, tag := 0, network := { ip := ipv4 10 1 0 0, prefixlen := 16 },
    nexthop := ipv4 10 0 0 2, metric := 7, changed := false, garbage := false,
    imported := false, marked_for_deletion := false, timeout := some 0 }

/-- Invariant P2/I2 of the spec: a route in garbage-collection state has
metric 16. -/
def GarbageInv (st : RIPState) : Prop :=
  ∀ r ∈ st.routes, r.garbage = true → r.metric = MAX_METRIC

instance (st : RIPState) : Decidable (GarbageInv st) := by
  unfold GarbageInv
  infer_instance

/-- A route table with one garbage route (metric 16) and one live route,
satisfying the garbage invariant. -/
def c6State : RIPState :=
  { routes := [{ afi := 2, tag := 0, network := { ip := ipv4 10 2 0 0, prefixlen := 16 },
                 nexthop := ipv4 10 0 0 7, metric := 16, changed := true, garbage := true,
                 imported := false, marked_for_deletion := false, timeout := some 3 },
               { afi := 2, tag := 0, network := { ip := ipv4 10 3 0 0, prefixlen := 16 },
                 nexthop := ipv4 10 0 0 8, metric := 4, changed := false, garbage := false,
                 imported := false, marked_for_deletion := false, timeout := some 1 }]
    route_change := false
    gc_started := true }

/-! ## Helper lemmas -/

theorem getD_take_lt (l : List Nat) (n i d : Nat) (h : i < n) :
    (l.take n).getD i d = l.getD i d := by
  simp [List.getD, List.getElem?_take, h]

theorem readU16_take (l : List Nat) (n i : Nat) (h : i + 1 < n) :
    readU16 (l.take n) i = readU16 l i := by
  unfold readU16
  rw [getD_take_lt _ _ _ _ (by omega), getD_take_lt _ _ _ _ h]


theorem decodeRtes_zero (srcIp now : Nat) (rest : List Nat) :
    decodeRtes srcIp now 0 rest = .ok [] := rfl

theorem decodeRtes_succ (srcIp now n : Nat) (rest : List Nat) :
    decodeRtes srcIp now (n + 1) rest =
      match rteFromNet (rest.take 20) srcIp now with
      | .error e => .error e
      | .ok r =>
        match decodeRtes srcIp now n (rest.drop 20) with
        | .error e => .error e
        | .ok rs => .ok (r :: rs) := rfl

theorem rteFromNet_mask_none (slice : List Nat) (srcIp now : Nat)
    (hm : maskToNetmaskInt (readU32 slice 8) = none) :
    rteFromNet slice srcIp now = .error .netmaskError := by
  unfold rteFromNet setNetwork
  rw [hm]

theorem rteFromNet_metric_bad (slice : List Nat) (srcIp now nm : Nat)
    (hm : maskToNetmaskInt (readU32 slice 8) = some nm)
    (hmet : ¬ readU32 slice 16 ≤ MAX_METRIC) :
    rteFromNet slice srcIp now = .error .formatError := by
  unfold rteFromNet setNetwork
  rw [hm]
  simp [hmet]

theorem rteFromNet_decodes (slice : List Nat) (srcIp now nm : Nat)
    (hm : maskToNetmaskInt (readU32 slice 8) = some nm)
    (hmet : readU32 slice 16 ≤ MAX_METRIC) :
    rteFromNet slice srcIp now = .ok
      { afi := readU16 slice 0, tag := readU16 slice 2,
        network := { ip := readU32 slice 4 &&& nm, prefixlen := prefixFromIpInt nm },
        nexthop := if readU32 slice 12 = 0 then srcIp else readU32 slice 12,
        metric := readU32 slice 16, changed := false, garbage := false,
        imported := false, marked_for_deletion := false, timeout := some now } := by
  unfold rteFromNet setNetwork
  rw [hm]
  simp [hmet]

theorem rteFromNet_ok_iff (slice : List Nat) (srcIp now : Nat) :
    (∃ r, rteFromNet slice srcIp now = .ok r) ↔ entryOK slice := by
  unfold entryOK
  cases hm : maskToNetmaskInt (readU32 slice 8) with
  | none => simp [rteFromNet_mask_none _ _ _ hm]
  | some nm =>
    by_cases hmet : readU32 slice 16 ≤ MAX_METRIC
    · simp [rteFromNet_decodes _ _ _ _ hm hmet, hmet]
    · simp [rteFromNet_metric_bad _ _ _ _ hm hmet, hmet]

theorem decodeRtes_ok_iff (srcIp now : Nat) :
    ∀ (n : Nat) (rest : List Nat),
      (∃ rs, decodeRtes srcIp now n rest = .ok rs) ↔
        ∀ i < n, entryOK ((rest.drop (20 * i)).take 20) := by
  intro n
  induction n with
  | zero => intro rest; simp [decodeRtes_zero]
  | succ n ih =>
    intro rest
    constructor
    · rintro ⟨rs, hrs⟩ i hi
      rw [decodeRtes_succ] at hrs
      cases hok : rteFromNet (rest.take 20) srcIp now with
      | error e => rw [hok] at hrs; cases hrs
      | ok r =>
        rw [hok] at hrs
        cases hrest : decodeRtes srcIp now n (rest.drop 20) with
        | error e => rw [hrest] at hrs; cases hrs
        | ok rs0 =>
          cases i with
          | zero =>
            simpa using (rteFromNet_ok_iff (rest.take 20) srcIp now).mp ⟨r, hok⟩
          | succ j =>
            have hj := (ih (rest.drop 20)).mp ⟨rs0, hrest⟩ j (by omega)
            rw [List.drop_drop] at hj
            have heq : 20 + 20 * j = 20 * (j + 1) := by ring
            rw [heq] at hj
            exact hj
    · intro hall
      have h0 : entryOK (rest.take 20) := by simpa using hall 0 (by omega)
      obtain ⟨r, hok⟩ := (rteFromNet_ok_iff (rest.take 20) srcIp now).mpr h0
      have hrestall : ∀ i < n, entryOK (((rest.drop 20).drop (20 * i)).take 20) := by
        intro i hi
        rw [List.drop_drop]
        have heq : 20 + 20 * i = 20 * (i + 1) := by ring
        rw [heq]
        exact hall (i + 1) (by omega)
      obtain ⟨rs0, hrest⟩ := (ih (rest.drop 20)).mpr hrestall
      refine ⟨r :: rs0, ?_⟩
      rw [decodeRtes_succ, hok, hrest]

theorem decodeRtes_formatError (srcIp now : Nat) :
    ∀ (n : Nat) (rest : List Nat),
      decodeRtes srcIp now n rest = .error .formatError →
        ∃ i < n, MAX_METRIC < readU32 ((rest.drop (20 * i)).take 20) 16 := by
  intro n
  induction n with
  | zero => intro rest h; rw [decodeRtes_zero] at h; cases h
  | succ n ih =>
    intro rest h
    rw [decodeRtes_succ] at h
    cases hok : rteFromNet (rest.take 20) srcIp now with
    | error e =>
      rw [hok] at h
      cases e with
      | formatError =>
        refine ⟨0, by omega, ?_⟩
        simp only [Nat.mul_zero, List.drop_zero]
        cases hm : maskToNetmaskInt (readU32 (rest.take 20) 8) with
        | none => rw [rteFromNet_mask_none _ _ _ hm] at hok; cases hok
        | some nm =>
          by_cases hmet : readU32 (rest.take 20) 16 ≤ MAX_METRIC
          · rw [rteFromNet_decodes _ _ _ _ hm hmet] at hok; cases hok
          · omega
      | netmaskError => cases h
    | ok r =>
      rw [hok] at h
      cases hrest : decodeRtes srcIp now n (rest.drop 20) with
      | error e =>
        rw [hrest] at h
        cases e with
        | formatError =>
          obtain ⟨i, hi, hgt⟩ := ih (rest.drop 20) hrest
          rw [List.drop_drop] at hgt
          have heq : 20 + 20 * i = 20 * (i + 1) := by ring
          rw [heq] at hgt
          exact ⟨i + 1, by omega, hgt⟩
        | netmaskError => cases h
      | ok rs0 => rw [hrest] at h; cases h

theorem headerFromNet_take (data : List Nat) :
    headerFromNet (data.take 4) =
      if readU16 data 2 ≠ 0 then .error .formatError
      else .ok ⟨data.getD 0 0, data.getD 1 0⟩ := by
  unfold headerFromNet
  rw [readU16_take _ _ _ (by omega), getD_take_lt _ _ _ _ (by omega),
      getD_take_lt _ _ _ _ (by omega)]

theorem packetFromNet_eq (data : List Nat) (srcIp now : Nat) :
    packetFromNet data srcIp now =
      if data.length < 4 then .error .formatError
      else if (data.length - 4) % 20 ≠ 0 then .error .formatError
      else if readU16 data 2 ≠ 0 then .error .formatError
      else
        match decodeRtes srcIp now ((data.length - 4) / 20) (data.drop 4) with
        | .error e => .error e
        | .ok rtes => .ok ⟨⟨data.getD 0 0, data.getD 1 0⟩, rtes⟩ := by
  unfold packetFromNet
  by_cases h4 : data.length < 4
  · simp [h4]
  · by_cases h20 : (data.length - 4) % 20 ≠ 0
    · simp [h4, h20]
    · simp only [h4, if_false, h20, ite_false]
      rw [headerFromNet_take]
      by_cases hz : readU16 data 2 ≠ 0
      · simp [hz]
      · simp [hz]


theorem packetFromNet_cons (a b c d : Nat) (rest : List Nat) (srcIp now : Nat) :
    packetFromNet (a :: b :: c :: d :: rest) srcIp now =
      if rest.length % 20 ≠ 0 then .error .formatError
      else if c * 256 + d ≠ 0 then .error .formatError
      else
        match decodeRtes srcIp now (rest.length / 20) rest with
        | .error e => .error e
        | .ok rtes => .ok ⟨⟨a, b⟩, rtes⟩ := by
  rw [packetFromNet_eq]
  have h4 : ¬ ((a :: b :: c :: d :: rest).length < 4) := by simp
  rw [if_neg h4]
  have hlen : (a :: b :: c :: d :: rest).length - 4 = rest.length := by simp
  rw [hlen]
  have hr16 : readU16 (a :: b :: c :: d :: rest) 2 = c * 256 + d := by
    simp [readU16]
  rw [hr16]
  rfl

/-! ## Claim theorems -/


/-- C7 counterexample: with the default 30-second update timer the delay
32 = T + 2 is not a possible result of RIP.get_update_interval, because
random.randrange(-JITTER_VALUE, JITTER_VALUE) excludes its upper bound. -/
theorem c7_counterexample : ¬ updateIntervalPossible 30 32 := by
  rintro ⟨r, hm, hd⟩
  simp only [randrangeMem, JITTER_VALUE, getUpdateInterval] at hm hd
  omega

/-- C7 (amended): every periodic-update rescheduling delay lies in
[T - 2, T + 1], and exactly the integers of that interval are possible;
T + 2 is not attainable since randrange excludes its upper bound. -/
theorem c7_update_interval_range (updateTimer : Nat) (d : Int) :
    updateIntervalPossible updateTimer d ↔
      (updateTimer : Int) - 2 ≤ d ∧ d ≤ (updateTimer : Int) + 1 := by
  constructor
  · rintro ⟨r, hm, hd⟩
    simp only [randrangeMem, JITTER_VALUE, getUpdateInterval] at hm hd
    omega
  · rintro ⟨h1, h2⟩
    refine ⟨d - (updateTimer : Int), ?_, ?_⟩
    · simp only [randrangeMem, JITTER_VALUE]
      omega
    · simp only [getUpdateInterval]
      omega

/-- C8: for a header with cmd in {1, 2} and ver = 2, decoding the 4-byte
encoding yields the same header and bytes 2 and 3 of the encoding are
zero. -/
theorem c8_header_roundtrip (h : RIPHeaderS) (_hcmd : h.cmd = 1 ∨ h.cmd = 2)
    (_hver : h.ver = 2) :
    headerFromNet (serializeHeader h) = .ok h ∧
    (serializeHeader h).getD 2 1 = 0 ∧ (serializeHeader h).getD 3 1 = 0 := by
  refine ⟨?_, rfl, rfl⟩
  simp [headerFromNet, serializeHeader, readU16]

/-- C8 witness: the round trip evaluated at the RESPONSE header. -/
theorem c8_header_roundtrip_witness :
    headerFromNet (serializeHeader ⟨2, 2⟩) = .ok ⟨2, 2⟩ ∧
    (serializeHeader (⟨2, 2⟩ : RIPHeaderS)).getD 2 1 = 0 ∧
    (serializeHeader (⟨2, 2⟩ : RIPHeaderS)).getD 3 1 = 0 :=
  c8_header_roundtrip ⟨2, 2⟩ (Or.inr rfl) rfl

theorem genUpdateRoutes_nexthop (ifc : IfaceS) (t sh : Bool) :
    ∀ (routes : List RIPRouteEntryS) (msg : List Nat) (count : Nat),
      (genUpdateRoutes ifc t sh routes msg count).1.map (fun r => r.nexthop)
        = routes.map (fun r => r.nexthop) := by
  intro routes
  induction routes with
  | nil => intro msg count; rfl
  | cons rt rest ih =>
    intro msg count
    simp only [genUpdateRoutes]
    split
    · simp [ih]
    · split
      · simp [ih]
      · split
        · simp [ih]
        · simp [ih]

theorem genUpdateIfaces_nexthop (t sh : Bool) :
    ∀ (ifaces : List IfaceS) (routes : List RIPRouteEntryS),
      (genUpdateIfaces t sh ifaces routes).1.map (fun r => r.nexthop)
        = routes.map (fun r => r.nexthop) := by
  intro ifaces
  induction ifaces with
  | nil => intro routes; rfl
  | cons ifc rest ih =>
    intro routes
    simp only [genUpdateIfaces]
    rw [ih, genUpdateRoutes_nexthop]

/-- C9: generate_update (periodic or triggered, with or without split
horizon, over any interfaces) leaves every stored route's nexthop as it
was: the per-interface rewrite is applied to a copy used only for
serialization and the saved nexthop is restored on the entry. -/
theorem c9_generate_update_preserves_nexthops (st : RIPState)
    (ifaces : List IfaceS) (triggered splitHorizon : Bool) :
    (generateUpdate st ifaces triggered splitHorizon).1.routes.map (fun r => r.nexthop)
      = st.routes.map (fun r => r.nexthop) := by
  simp only [generateUpdate]
  split
  · rw [List.map_map]
    have : ((fun r : RIPRouteEntryS => r.nexthop) ∘
        (fun rt : RIPRouteEntryS => { rt with changed := false }))
        = fun r : RIPRouteEntryS => r.nexthop := rfl
    rw [this, genUpdateIfaces_nexthop]
  · rw [genUpdateIfaces_nexthop]

/-- C5 (amended): packet decoding raises FormatError only for a malformed
length, a nonzero reserved field, or an out-of-range metric; and a
well-sized datagram decodes successfully if and only if the reserved field
is zero and every entry has an ipaddr-acceptable mask field and an
in-range metric.  (The claim's "any other well-sized datagram decodes
successfully" fails: an entry mask that ipaddr rejects aborts decoding
with NetmaskValueError, which also pre-empts the metric check.) -/
theorem c5_claim (data : List Nat) (srcIp now : Nat) :
    ((∃ pkt, packetFromNet data srcIp now = .ok pkt) ↔
      (4 ≤ data.length ∧ (data.length - 4) % 20 = 0 ∧ readU16 data 2 = 0 ∧
        ∀ i < (data.length - 4) / 20, entryOK (((data.drop 4).drop (20 * i)).take 20))) ∧
    (packetFromNet data srcIp now = .error .formatError →
      data.length < 4 ∨ (data.length - 4) % 20 ≠ 0 ∨ readU16 data 2 ≠ 0 ∨
        ∃ i < (data.length - 4) / 20,
          MAX_METRIC < readU32 (((data.drop 4).drop (20 * i)).take 20) 16) := by
  rw [packetFromNet_eq]
  by_cases h4 : data.length < 4
  · rw [if_pos h4]
    constructor
    · constructor
      · rintro ⟨pkt, hpkt⟩; cases hpkt
      · rintro ⟨hlen, -⟩; exact absurd hlen (by omega)
    · intro _
      exact Or.inl h4
  · rw [if_neg h4]
    by_cases h20 : (data.length - 4) % 20 ≠ 0
    · rw [if_pos h20]
      constructor
      · constructor
        · rintro ⟨pkt, hpkt⟩; cases hpkt
        · rintro ⟨-, hmod, -⟩; exact absurd hmod h20
      · intro _
        exact Or.inr (Or.inl h20)
    · rw [if_neg h20]
      by_cases hz : readU16 data 2 ≠ 0
      · rw [if_pos hz]
        constructor
        · constructor
          · rintro ⟨pkt, hpkt⟩; cases hpkt
          · rintro ⟨-, -, hzz, -⟩; exact absurd hzz hz
        · intro _
          exact Or.inr (Or.inr (Or.inl hz))
      · rw [if_neg hz]
        cases hd : decodeRtes srcIp now ((data.length - 4) / 20) (data.drop 4) with
        | error e =>
          constructor
          · constructor
            · rintro ⟨pkt, hpkt⟩
              cases hpkt
            · rintro ⟨-, -, -, hall⟩
              obtain ⟨rs, hrs⟩ := (decodeRtes_ok_iff srcIp now _ _).mpr hall
              rw [hrs] at hd
              cases hd
          · intro herr
            cases e with
            | formatError =>
              obtain ⟨i, hi, hgt⟩ := decodeRtes_formatError srcIp now _ _ hd
              exact Or.inr (Or.inr (Or.inr ⟨i, hi, hgt⟩))
            | netmaskError => cases herr
        | ok rtes =>
          constructor
          · constructor
            · intro _
              refine ⟨by omega, by omega, by omega, ?_⟩
              exact (decodeRtes_ok_iff srcIp now _ _).mp ⟨rtes, hd⟩
            · intro _
              exact ⟨_, rfl⟩
          · intro herr
            cases herr

/-- C5 counterexample: a well-sized datagram with zero reserved field and
metric 1 — none of the claim's three failure modes — that still fails to
decode, with NetmaskValueError rather than FormatError, because its mask
field 255.0.255.0 is rejected by ipaddr. -/
theorem c5_counterexample :
    4 ≤ c5BadMaskData.length ∧ (c5BadMaskData.length - 4) % 20 = 0 ∧
    readU16 c5BadMaskData 2 = 0 ∧ readU32 c5BadMaskData 20 = 1 ∧
    packetFromNet c5BadMaskData (ipv4 10 0 0 2) 0 = .error .netmaskError := by
  decide

/-- C5 witness: the success characterization evaluated on a concrete
well-formed datagram. -/
theorem c5_claim_witness : ∃ pkt, packetFromNet c5GoodData 1 0 = .ok pkt :=
  (c5_claim c5GoodData 1 0).1.mpr (by decide)

/-- C10 (amended): the header version byte is never validated on ingress:
for any datagram that decodes successfully, replacing the version byte by
any value still decodes, yielding the same command and entries with the
new version, and datagramReceived dispatches it identically (by command
alone).  (The claim's premise list is amended: passing the length,
reserved and metric checks does not suffice for a successful decode — the
mask fields must also be acceptable to ipaddr.) -/
theorem c10_claim (d0 d1 d2 d3 : Nat) (rest : List Nat) (srcIp now : Nat)
    (pkt : RIPPacketS)
    (hok : packetFromNet (d0 :: d1 :: d2 :: d3 :: rest) srcIp now = .ok pkt) :
    ∀ v srcPort ripPort,
      packetFromNet (d0 :: v :: d2 :: d3 :: rest) srcIp now =
        .ok { hdr := { cmd := pkt.hdr.cmd, ver := v }, rtes := pkt.rtes } ∧
      dispatchDatagram (d0 :: v :: d2 :: d3 :: rest) srcIp srcPort ripPort now =
        dispatchDatagram (d0 :: d1 :: d2 :: d3 :: rest) srcIp srcPort ripPort now := by
  intro v srcPort ripPort
  rw [packetFromNet_cons] at hok
  by_cases h20 : rest.length % 20 ≠ 0
  · rw [if_pos h20] at hok; cases hok
  · rw [if_neg h20] at hok
    by_cases hz : d2 * 256 + d3 ≠ 0
    · rw [if_pos hz] at hok; cases hok
    · rw [if_neg hz] at hok
      cases hd : decodeRtes srcIp now (rest.length / 20) rest with
      | error e => rw [hd] at hok; cases hok
      | ok rtes =>
        rw [hd] at hok
        cases hok
        constructor
        · rw [packetFromNet_cons, if_neg h20, if_neg hz, hd]
        · unfold dispatchDatagram
          rw [packetFromNet_cons, packetFromNet_cons]
          simp only [if_neg h20, if_neg hz, hd]

/-- C10 counterexample: a datagram that passes the length, reserved-field
and metric checks but does not decode and is not dispatched: ipaddr
rejects its mask field and datagramReceived does not catch the resulting
NetmaskValueError. -/
theorem c10_counterexample :
    4 ≤ c10BadMaskData.length ∧ (c10BadMaskData.length - 4) % 20 = 0 ∧
    readU16 c10BadMaskData 2 = 0 ∧ readU32 c10BadMaskData 20 = 1 ∧
    (∀ pkt, packetFromNet c10BadMaskData (ipv4 10 0 0 2) 0 ≠ .ok pkt) ∧
    dispatchDatagram c10BadMaskData (ipv4 10 0 0 2) 520 520 0 = .uncaughtError := by
  refine ⟨by decide, by decide, by decide, by decide, ?_, by decide⟩
  intro pkt h
  rw [show packetFromNet c10BadMaskData (ipv4 10 0 0 2) 0 = .error .netmaskError from by decide] at h
  cases h

/-- C10 witness: version independence evaluated concretely, replacing
version 2 by 9 on a well-formed RESPONSE datagram. -/
theorem c10_claim_witness :
    packetFromNet (2 :: 9 :: 0 :: 0 :: c10GoodRest) 1 0 =
      .ok { hdr := { cmd := 2, ver := 9 },
            rtes := [{ afi := 2, tag := 0,
                       network := { ip := ipv4 192 168 1 0, prefixlen := 24 },
                       nexthop := ipv4 10 0 0 3, metric := 1, changed := false,
                       garbage := false, imported := false,
                       marked_for_deletion := false, timeout := some 0 }] } ∧
    dispatchDatagram (2 :: 9 :: 0 :: 0 :: c10GoodRest) 1 520 520 0 =
      dispatchDatagram (2 :: 2 :: 0 :: 0 :: c10GoodRest) 1 520 520 0 :=
  c10_claim 2 2 0 0 c10GoodRest 1 0
    { hdr := { cmd := 2, ver := 2 },
      rtes := [{ afi := 2, tag := 0,
                 network := { ip := ipv4 192 168 1 0, prefixlen := 24 },
                 nexthop := ipv4 10 0 0 3, metric := 1, changed := false,
                 garbage := false, imported := false,
                 marked_for_deletion := false, timeout := some 0 }] }
    (by decide) 9 520 520

theorem processResponse_nil (st : RIPState) (host now : Nat) :
    processResponse st [] host now = (st, []) := rfl

theorem processResponse_cons (st : RIPState) (rte : RIPRouteEntryS)
    (rest : List RIPRouteEntryS) (host now : Nat) :
    processResponse st (rte :: rest) host now =
      ((processResponse (tryAddRoute st { rte with metric := min (rte.metric + 1) MAX_METRIC } host true now).1 rest host now).1,
       (tryAddRoute st { rte with metric := min (rte.metric + 1) MAX_METRIC } host true now).2 ++
       (processResponse (tryAddRoute st { rte with metric := min (rte.metric + 1) MAX_METRIC } host true now).1 rest host now).2) := rfl

theorem tryAddRoute_no_best (st : RIPState) (rte0 : RIPRouteEntryS) (host : Nat)
    (install : Bool) (now : Nat)
    (hl : getRoute st.routes rte0.network.ip (contigMask rte0.network.prefixlen) = none) :
    tryAddRoute st rte0 host install now =
      if rte0.metric = MAX_METRIC then (st, [])
      else if install = false then
        ({ st with routes := st.routes ++ [{ rte0 with nexthop := host, changed := true }] }, [])
      else
        ({ st with routes := st.routes ++ [{ rte0 with nexthop := host, changed := true }],
                   route_change := true },
         [SysAction.install rte0.network.ip rte0.network.prefixlen rte0.metric host]) := by
  simp only [tryAddRoute, hl]

/-- C4: every RESPONSE entry is processed with metric min(metric + 1, 16);
when no current route matches and that bumped metric is 16 the entry is
ignored (state unchanged, no system call); otherwise, with no matching
route, the route is appended with metric + 1 and installed. -/
theorem c4_claim (st : RIPState) (rte : RIPRouteEntryS) (host now : Nat)
    (hl : getRoute st.routes rte.network.ip (contigMask rte.network.prefixlen) = none) :
    (15 ≤ rte.metric → processResponse st [rte] host now = (st, [])) ∧
    (rte.metric < 15 →
      processResponse st [rte] host now =
        ({ st with
            routes := st.routes ++ [{ rte with metric := rte.metric + 1, nexthop := host, changed := true }]
            route_change := true },
         [SysAction.install rte.network.ip rte.network.prefixlen (rte.metric + 1) host])) := by
  have hl' : getRoute st.routes
      ({ rte with metric := min (rte.metric + 1) MAX_METRIC }).network.ip
      (contigMask ({ rte with metric := min (rte.metric + 1) MAX_METRIC }).network.prefixlen)
      = none := hl
  constructor
  · intro hm
    rw [processResponse_cons, tryAddRoute_no_best _ _ _ _ _ hl']
    have h16 : ({ rte with metric := min (rte.metric + 1) MAX_METRIC }).metric = MAX_METRIC := by
      simp only [MAX_METRIC]
      omega
    rw [if_pos h16]
    simp [processResponse_nil]
  · intro hm
    rw [processResponse_cons, tryAddRoute_no_best _ _ _ _ _ hl']
    have h16 : ({ rte with metric := min (rte.metric + 1) MAX_METRIC }).metric ≠ MAX_METRIC := by
      simp only [MAX_METRIC]
      omega
    rw [if_neg h16, if_neg (by simp : ¬ (true = false))]
    have hmin : min (rte.metric + 1) MAX_METRIC = rte.metric + 1 := by
      simp only [MAX_METRIC]
      omega
    simp [processResponse_nil, hmin]

/-- C4 witness: a metric-15 entry for an unknown network is ignored. -/
theorem c4_claim_witness :
    processResponse emptyState
      [{ afi := 2, tag := 0, network := { ip := ipv4 192 168 1 0, prefixlen := 24 },
         nexthop := ipv4 10 0 0 3, metric := 15, changed := false, garbage := false,
         imported := false, marked_for_deletion := false, timeout := some 0 }]
      (ipv4 10 0 0 2) 0 = (emptyState, []) :=
  (c4_claim emptyState _ (ipv4 10 0 0 2) 0 rfl).1 (by decide)

/-- C1 (amended): ingress canonicalization substitutes the datagram
source only for a zero wire nexthop; but try_add_route then
unconditionally overwrites the entry nexthop with the datagram source, so
the route stored for a previously unknown network always carries the
source as nexthop, whatever the wire nexthop was. -/
theorem c1_claim :
    (∀ (slice : List Nat) (srcIp now : Nat) (r : RIPRouteEntryS),
        rteFromNet slice srcIp now = .ok r →
        r.nexthop = (if readU32 slice 12 = 0 then srcIp else readU32 slice 12)) ∧
    (∀ (st : RIPState) (rte : RIPRouteEntryS) (host : Nat) (install : Bool) (now : Nat),
        getRoute st.routes rte.network.ip (contigMask rte.network.prefixlen) = none →
        rte.metric ≠ MAX_METRIC →
        (tryAddRoute st rte host install now).1.routes =
          st.routes ++ [{ rte with nexthop := host, changed := true }]) := by
  constructor
  · intro slice srcIp now r hok
    cases hm : maskToNetmaskInt (readU32 slice 8) with
    | none => rw [rteFromNet_mask_none _ _ _ hm] at hok; cases hok
    | some nm =>
      by_cases hmet : readU32 slice 16 ≤ MAX_METRIC
      · rw [rteFromNet_decodes _ _ _ _ hm hmet] at hok
        cases hok
        rfl
      · rw [rteFromNet_metric_bad _ _ _ _ hm hmet] at hok; cases hok
  · intro st rte host install now hl hm
    rw [tryAddRoute_no_best _ _ _ _ _ hl, if_neg hm]
    cases install
    · rw [if_pos rfl]
    · rw [if_neg (by simp : ¬ (true = false))]

/-- C1 counterexample: a RESPONSE entry with nonzero wire nexthop
10.0.0.3 received from 10.0.0.2 decodes with nexthop 10.0.0.3, yet after
process_response the installed route's nexthop is 10.0.0.2: the nonzero
wire nexthop is not preserved through route installation. -/
theorem c1_counterexample :
    packetFromNet c1Data (ipv4 10 0 0 2) 0 = .ok { hdr := ⟨2, 2⟩, rtes := [c1Entry] } ∧
    c1Entry.nexthop = ipv4 10 0 0 3 ∧
    readU32 c1Data 16 = ipv4 10 0 0 3 ∧
    (ipv4 10 0 0 3 : Nat) ≠ ipv4 10 0 0 2 ∧
    (processResponse emptyState [c1Entry] (ipv4 10 0 0 2) 0).1.routes.map
      (fun r => r.nexthop) = [ipv4 10 0 0 2] := by
  decide

/-- C1 witness: the try_add_route overwrite evaluated on the concrete
entry. -/
theorem c1_claim_witness :
    (tryAddRoute emptyState c1Entry (ipv4 10 0 0 2) true 0).1.routes =
      emptyState.routes ++ [{ c1Entry with nexthop := ipv4 10 0 0 2, changed := true }] :=
  c1_claim.2 emptyState c1Entry (ipv4 10 0 0 2) true 0 rfl (by decide)

/-- C2 (amended): a 20-byte entry with afi 0xFFFF is not treated as an
authentication entry: decoding copies the afi field verbatim and surfaces
the entry as a route, and response processing admits it into the Route
Table like any other entry. -/
theorem c2_claim :
    (∀ (slice : List Nat) (srcIp now : Nat) (r : RIPRouteEntryS),
        rteFromNet slice srcIp now = .ok r → r.afi = readU16 slice 0) ∧
    (∀ (st : RIPState) (rte : RIPRouteEntryS) (host now : Nat),
        getRoute st.routes rte.network.ip (contigMask rte.network.prefixlen) = none →
        rte.metric < 15 →
        (processResponse st [rte] host now).1.routes.map (fun r => r.afi) =
          st.routes.map (fun r => r.afi) ++ [rte.afi]) := by
  constructor
  · intro slice srcIp now r hok
    cases hm : maskToNetmaskInt (readU32 slice 8) with
    | none => rw [rteFromNet_mask_none _ _ _ hm] at hok; cases hok
    | some nm =>
      by_cases hmet : readU32 slice 16 ≤ MAX_METRIC
      · rw [rteFromNet_decodes _ _ _ _ hm hmet] at hok
        cases hok
        rfl
      · rw [rteFromNet_metric_bad _ _ _ _ hm hmet] at hok; cases hok
  · intro st rte host now hl hm
    have hl' : getRoute st.routes
        ({ rte with metric := min (rte.metric + 1) MAX_METRIC }).network.ip
        (contigMask ({ rte with metric := min (rte.metric + 1) MAX_METRIC }).network.prefixlen)
        = none := hl
    rw [processResponse_cons, tryAddRoute_no_best _ _ _ _ _ hl']
    have h16 : ({ rte with metric := min (rte.metric + 1) MAX_METRIC }).metric ≠ MAX_METRIC := by
      simp only [MAX_METRIC]
      omega
    rw [if_neg h16, if_neg (by simp : ¬ (true = false))]
    simp [processResponse_nil]

/-- C2 counterexample: a decodable entry with afi 0xFFFF is surfaced by
the decoder and admitted into the Route Table by process_response. -/
theorem c2_counterexample :
    readU16 c2AuthData 4 = 65535 ∧
    packetFromNet c2AuthData (ipv4 10 0 0 2) 0 = .ok { hdr := ⟨2, 2⟩, rtes := [c2AuthEntry] } ∧
    c2AuthEntry.afi = 65535 ∧
    (processResponse emptyState [c2AuthEntry] (ipv4 10 0 0 2) 0).1.routes.map
      (fun r => r.afi) = [65535] := by
  decide

/-- C2 witness: admission of the afi-0xFFFF entry evaluated through the
amended theorem. -/
theorem c2_claim_witness :
    (processResponse emptyState [c2AuthEntry] (ipv4 10 0 0 2) 0).1.routes.map
      (fun r => r.afi) = emptyState.routes.map (fun r => r.afi) ++ [c2AuthEntry.afi] :=
  c2_claim.2 emptyState c2AuthEntry (ipv4 10 0 0 2) 0 rfl (by decide)

/-- C3 (amended): a specific REQUEST is echoed back with the command set
to RESPONSE, the version kept, and per entry only the metric rewritten
(to the matching route's metric, or 16 when unknown) relative to the
in-memory entries; but those in-memory entries are not verbatim wire
copies: decoding canonicalizes each entry, replacing a zero wire nexthop
with the datagram source and replacing address and mask by the
ipaddr-canonicalized network, so the echoed wire bytes can differ from
the received ones in those fields. -/
theorem c3_claim :
    (∀ (routes : List RIPRouteEntryS) (pkt : RIPPacketS),
      (sendPartialResponse routes pkt).hdr.cmd = 2 ∧
      (sendPartialResponse routes pkt).hdr.ver = pkt.hdr.ver ∧
      (sendPartialResponse routes pkt).rtes.length = pkt.rtes.length ∧
      ∀ (i : Nat) (h1 : i < (sendPartialResponse routes pkt).rtes.length)
        (h2 : i < pkt.rtes.length),
        ((sendPartialResponse routes pkt).rtes.get ⟨i, h1⟩).afi = (pkt.rtes.get ⟨i, h2⟩).afi ∧
        ((sendPartialResponse routes pkt).rtes.get ⟨i, h1⟩).tag = (pkt.rtes.get ⟨i, h2⟩).tag ∧
        ((sendPartialResponse routes pkt).rtes.get ⟨i, h1⟩).network = (pkt.rtes.get ⟨i, h2⟩).network ∧
        ((sendPartialResponse routes pkt).rtes.get ⟨i, h1⟩).nexthop = (pkt.rtes.get ⟨i, h2⟩).nexthop ∧
        ((sendPartialResponse routes pkt).rtes.get ⟨i, h1⟩).metric =
          (match getRoute routes ((pkt.rtes.get ⟨i, h2⟩).network.ip)
              (contigMask ((pkt.rtes.get ⟨i, h2⟩).network.prefixlen)) with
           | none => MAX_METRIC
           | some matching => matching.metric)) ∧
    (∀ (slice : List Nat) (srcIp now : Nat) (r : RIPRouteEntryS),
        rteFromNet slice srcIp now = .ok r →
        r.afi = readU16 slice 0 ∧ r.tag = readU16 slice 2 ∧
        r.nexthop = (if readU32 slice 12 = 0 then srcIp else readU32 slice 12) ∧
        ∃ nm, maskToNetmaskInt (readU32 slice 8) = some nm ∧
          r.network = { ip := readU32 slice 4 &&& nm, prefixlen := prefixFromIpInt nm }) := by
  constructor
  · intro routes pkt
    refine ⟨rfl, rfl, by simp [sendPartialResponse], ?_⟩
    intro i h1 h2
    have hget : (sendPartialResponse routes pkt).rtes.get ⟨i, h1⟩ =
        (match getRoute routes ((pkt.rtes.get ⟨i, h2⟩).network.ip)
            (contigMask ((pkt.rtes.get ⟨i, h2⟩).network.prefixlen)) with
         | none => { pkt.rtes.get ⟨i, h2⟩ with metric := MAX_METRIC }
         | some matching => { pkt.rtes.get ⟨i, h2⟩ with metric := matching.metric }) := by
      simp [sendPartialResponse, List.getElem_map]
    rw [hget]
    cases hgr : getRoute routes ((pkt.rtes.get ⟨i, h2⟩).network.ip)
        (contigMask ((pkt.rtes.get ⟨i, h2⟩).network.prefixlen)) with
    | none => exact ⟨rfl, rfl, rfl, rfl, rfl⟩
    | some matching => exact ⟨rfl, rfl, rfl, rfl, rfl⟩
  · intro slice srcIp now r hok
    cases hm : maskToNetmaskInt (readU32 slice 8) with
    | none => rw [rteFromNet_mask_none _ _ _ hm] at hok; cases hok
    | some nm =>
      by_cases hmet : readU32 slice 16 ≤ MAX_METRIC
      · rw [rteFromNet_decodes _ _ _ _ hm hmet] at hok
        cases hok
        exact ⟨rfl, rfl, rfl, nm, rfl, rfl⟩
      · rw [rteFromNet_metric_bad _ _ _ _ hm hmet] at hok; cases hok

/-- C3 counterexample: a specific request whose entry has wire nexthop
0.0.0.0 from source 10.0.0.2 is echoed with nexthop bytes 10.0.0.2: the
nexthop wire field of the reply differs from the received packet. -/
theorem c3_counterexample :
    packetFromNet c3RequestData (ipv4 10 0 0 2) 0 = .ok c3Packet ∧
    processRequest emptyState c3Packet = .specific (sendPartialResponse [] c3Packet) ∧
    readU32 c3RequestData 16 = 0 ∧
    readU32 (serializePacket (sendPartialResponse [] c3Packet)) 16 = ipv4 10 0 0 2 ∧
    (ipv4 10 0 0 2 : Nat) ≠ 0 := by
  decide

/-- C3 witness: the canonicalization facts evaluated on a concrete
entry slice. -/
theorem c3_claim_witness :
    c3WitnessEntry.afi = readU16 c3WitnessSlice 0 ∧
    c3WitnessEntry.tag = readU16 c3WitnessSlice 2 ∧
    c3WitnessEntry.nexthop =
      (if readU32 c3WitnessSlice 12 = 0 then ipv4 10 0 0 2 else readU32 c3WitnessSlice 12) ∧
    ∃ nm, maskToNetmaskInt (readU32 c3WitnessSlice 8) = some nm ∧
      c3WitnessEntry.network = { ip := readU32 c3WitnessSlice 4 &&& nm, prefixlen := prefixFromIpInt nm } :=
  c3_claim.2 c3WitnessSlice (ipv4 10 0 0 2) 0 c3WitnessEntry (by decide)

theorem modifyFirst_forall (P : RIPRouteEntryS → Prop) (p : RIPRouteEntryS → Bool)
    (f : RIPRouteEntryS → RIPRouteEntryS) :
    ∀ (l : List RIPRouteEntryS), (∀ r ∈ l, P r) → (∀ r, P r → P (f r)) →
      ∀ r ∈ modifyFirst l p f, P r := by
  intro l
  induction l with
  | nil => intro _ _ r hr; cases hr
  | cons x xs ih =>
    intro hl hf r hr
    unfold modifyFirst at hr
    by_cases hp : p x
    · rw [if_pos hp] at hr
      cases hr with
      | head => exact hf x (hl x (List.mem_cons_self x xs))
      | tail _ h => exact hl r (List.mem_cons_of_mem x h)
    · rw [if_neg hp] at hr
      cases hr with
      | head => exact hl x (List.mem_cons_self x xs)
      | tail _ h => exact ih (fun r hr => hl r (List.mem_cons_of_mem x hr)) hf r h

theorem startGCFirst_eq_none (st : RIPState) (p : RIPRouteEntryS → Bool) (now : Nat)
    (hf : st.routes.find? p = none) :
    startGarbageCollectionFirst st p now = (st, []) := by
  simp only [startGarbageCollectionFirst, hf]

theorem startGCFirst_eq_some (st : RIPState) (p : RIPRouteEntryS → Bool) (now : Nat)
    (best : RIPRouteEntryS) (hf : st.routes.find? p = some best) :
    startGarbageCollectionFirst st p now =
      if best.garbage = true then (st, [])
      else
        ({ st with
            routes := modifyFirst st.routes p (startGCEntry now)
            route_change := true
            gc_started := true },
         [SysAction.modify best.network.ip]) := by
  simp only [startGarbageCollectionFirst, hf]

theorem startGCFirst_garbageInv (st : RIPState) (p : RIPRouteEntryS → Bool) (now : Nat)
    (hinv : GarbageInv st) : GarbageInv (startGarbageCollectionFirst st p now).1 := by
  cases hf : st.routes.find? p with
  | none => rw [startGCFirst_eq_none st p now hf]; exact hinv
  | some best =>
    rw [startGCFirst_eq_some st p now best hf]
    by_cases hg : best.garbage = true
    · rw [if_pos hg]; exact hinv
    · rw [if_neg hg]
      intro r hr
      exact modifyFirst_forall _ p (startGCEntry now) st.routes hinv (fun r _ _ => rfl) r hr

theorem tryAddRoute_with_best (st : RIPState) (rte0 : RIPRouteEntryS) (host : Nat)
    (install : Bool) (now : Nat) (best : RIPRouteEntryS)
    (hf : getRoute st.routes rte0.network.ip (contigMask rte0.network.prefixlen) = some best) :
    tryAddRoute st rte0 host install now =
      (if host = best.nexthop then
        if best.metric ≠ rte0.metric then
          if best.metric ≠ MAX_METRIC ∧ MAX_METRIC ≤ rte0.metric then
            startGarbageCollectionFirst st
              (routePred rte0.network.ip (contigMask rte0.network.prefixlen)) now
          else
            ({ st with
                routes := modifyFirst st.routes
                  (routePred rte0.network.ip (contigMask rte0.network.prefixlen))
                  (updateRouteEntry { rte0 with nexthop := host } now)
                route_change := true },
             [SysAction.modify best.network.ip])
        else if best.garbage = false then
          ({ st with
              routes := modifyFirst st.routes
                (routePred rte0.network.ip (contigMask rte0.network.prefixlen))
                (fun old => { old with timeout := if old.imported then none else some now }) },
           [])
        else (st, [])
      else if rte0.metric < best.metric then
        ({ st with
            routes := modifyFirst st.routes
              (routePred rte0.network.ip (contigMask rte0.network.prefixlen))
              (updateRouteEntry { rte0 with nexthop := host } now)
            route_change := true },
         [SysAction.modify best.network.ip])
      else (st, [])) := by
  simp only [tryAddRoute, hf]

theorem tryAddRoute_garbageInv (st : RIPState) (rte : RIPRouteEntryS) (host : Nat)
    (install : Bool) (now : Nat) (hinv : GarbageInv st) (hg : rte.garbage = false) :
    GarbageInv (tryAddRoute st rte host install now).1 := by
  cases hf : getRoute st.routes rte.network.ip (contigMask rte.network.prefixlen) with
  | none =>
    rw [tryAddRoute_no_best st rte host install now hf]
    by_cases h16 : rte.metric = MAX_METRIC
    · rw [if_pos h16]; exact hinv
    · rw [if_neg h16]
      have happ : GarbageInv { st with
          routes := st.routes ++ [{ rte with nexthop := host, changed := true }] } := by
        intro r hr
        rcases List.mem_append.mp hr with h | h
        · exact hinv r h
        · rw [List.mem_singleton] at h
          subst h
          intro hgarb
          have hgr : rte.garbage = true := hgarb
          rw [hg] at hgr
          cases hgr
      by_cases hin : install = false
      · rw [if_pos hin]; exact happ
      · rw [if_neg hin]
        exact happ
  | some best =>
    rw [tryAddRoute_with_best st rte host install now best hf]
    by_cases h1 : host = best.nexthop
    · rw [if_pos h1]
      by_cases h2 : best.metric ≠ rte.metric
      · rw [if_pos h2]
        by_cases h3 : best.metric ≠ MAX_METRIC ∧ MAX_METRIC ≤ rte.metric
        · rw [if_pos h3]
          exact startGCFirst_garbageInv st _ now hinv
        · rw [if_neg h3]
          intro r hr
          refine modifyFirst_forall _ _ _ st.routes hinv ?_ r hr
          intro x _ hgarb
          cases hgarb
      · rw [if_neg h2]
        by_cases h4 : best.garbage = false
        · rw [if_pos h4]
          intro r hr
          refine modifyFirst_forall _ _ _ st.routes hinv ?_ r hr
          intro x hx hgarb
          exact hx hgarb
        · rw [if_neg h4]; exact hinv
    · rw [if_neg h1]
      by_cases h5 : rte.metric < best.metric
      · rw [if_pos h5]
        intro r hr
        refine modifyFirst_forall _ _ _ st.routes hinv ?_ r hr
        intro x _ hgarb
        cases hgarb
      · rw [if_neg h5]; exact hinv

theorem processResponse_garbageInv (host now : Nat) :
    ∀ (rtes : List RIPRouteEntryS) (st : RIPState), GarbageInv st →
      (∀ r ∈ rtes, r.garbage = false) →
      GarbageInv (processResponse st rtes host now).1 := by
  intro rtes
  induction rtes with
  | nil => intro st hinv _; exact hinv
  | cons rte rest ih =>
    intro st hinv hall
    rw [processResponse_cons]
    refine ih _ ?_ ?_
    · exact tryAddRoute_garbageInv st _ host true now hinv
        (hall rte (List.mem_cons_self rte rest))
    · intro r hr
      exact hall r (List.mem_cons_of_mem rte hr)

theorem decodeRtes_garbage_false (srcIp now : Nat) :
    ∀ (n : Nat) (rest : List Nat) (rs : List RIPRouteEntryS),
      decodeRtes srcIp now n rest = .ok rs → ∀ r ∈ rs, r.garbage = false := by
  intro n
  induction n with
  | zero =>
    intro rest rs h
    rw [decodeRtes_zero] at h
    cases h
    intro r hr
    cases hr
  | succ n ih =>
    intro rest rs h
    rw [decodeRtes_succ] at h
    cases hok : rteFromNet (rest.take 20) srcIp now with
    | error e => rw [hok] at h; cases h
    | ok r0 =>
      rw [hok] at h
      cases hrest : decodeRtes srcIp now n (rest.drop 20) with
      | error e => rw [hrest] at h; cases h
      | ok rs0 =>
        rw [hrest] at h
        cases h
        intro r hr
        cases hr with
        | head =>
          cases hm : maskToNetmaskInt (readU32 (rest.take 20) 8) with
          | none => rw [rteFromNet_mask_none _ _ _ hm] at hok; cases hok
          | some nm =>
            by_cases hmet : readU32 (rest.take 20) 16 ≤ MAX_METRIC
            · rw [rteFromNet_decodes _ _ _ _ hm hmet] at hok
              cases hok
              rfl
            · rw [rteFromNet_metric_bad _ _ _ _ hm hmet] at hok; cases hok
        | tail _ hr0 => exact ih (rest.drop 20) rs0 hrest r hr0

theorem packetFromNet_garbage_false (data : List Nat) (srcIp now : Nat)
    (pkt : RIPPacketS) (hok : packetFromNet data srcIp now = .ok pkt) :
    ∀ r ∈ pkt.rtes, r.garbage = false := by
  rw [packetFromNet_eq] at hok
  by_cases h4 : data.length < 4
  · rw [if_pos h4] at hok; cases hok
  · rw [if_neg h4] at hok
    by_cases h20 : (data.length - 4) % 20 ≠ 0
    · rw [if_pos h20] at hok; cases hok
    · rw [if_neg h20] at hok
      by_cases hz : readU16 data 2 ≠ 0
      · rw [if_pos hz] at hok; cases hok
      · rw [if_neg hz] at hok
        cases hd : decodeRtes srcIp now ((data.length - 4) / 20) (data.drop 4) with
        | error e => rw [hd] at hok; cases hok
        | ok rtes =>
          rw [hd] at hok
          cases hok
          exact decodeRtes_garbage_false srcIp now _ _ _ hd

theorem checkRouteTimeouts_garbageInv (st : RIPState) (now beforeTime : Nat)
    (hinv : GarbageInv st) : GarbageInv (checkRouteTimeouts st now beforeTime) := by
  intro r hr
  unfold checkRouteTimeouts at hr
  simp only [RIPState.routes] at hr
  rcases List.mem_map.mp hr with ⟨x, hx, hfx⟩
  subst hfx
  by_cases hc : x.garbage = false ∧ timedOut beforeTime x = true
  · rw [if_pos hc]
    intro _
    rfl
  · rw [if_neg hc]
    exact hinv x hx

theorem collectGarbage_garbageInv (st : RIPState) (beforeTime : Nat)
    (hinv : GarbageInv st) : GarbageInv (collectGarbageRoutes st beforeTime).1 := by
  intro r hr
  unfold collectGarbageRoutes at hr
  simp only [RIPState.routes] at hr
  rcases List.mem_filter.mp hr with ⟨hmem, -⟩
  rcases List.mem_map.mp hmem with ⟨x, hx, hfx⟩
  subst hfx
  by_cases hc : x.garbage = true ∧ timedOut beforeTime x = true
  · rw [if_pos hc]
    intro _
    exact hinv x hx hc.1
  · rw [if_neg hc]
    exact hinv x hx

theorem updateRouteAt_garbageInv (st : RIPState) (p : RIPRouteEntryS → Bool)
    (newrt : RIPRouteEntryS) (now : Nat) (hinv : GarbageInv st) :
    GarbageInv { st with routes := modifyFirst st.routes p (updateRouteEntry newrt now) } := by
  intro r hr
  refine modifyFirst_forall _ _ _ st.routes hinv ?_ r hr
  intro x _ hgarb
  cases hgarb

/-- C6: the invariant (garbage implies metric 16) is preserved by every
table-mutating operation: processing a decoded RESPONSE, the timeout
scan, the garbage-collection sweep, starting garbage collection on a
route, and update_route applied to a route. -/
theorem c6_claim (st : RIPState) (hinv : GarbageInv st) :
    (∀ (data : List Nat) (srcIp now : Nat) (pkt : RIPPacketS),
        packetFromNet data srcIp now = .ok pkt →
        GarbageInv (processResponse st pkt.rtes srcIp now).1) ∧
    (∀ now beforeTime, GarbageInv (checkRouteTimeouts st now beforeTime)) ∧
    (∀ beforeTime, GarbageInv (collectGarbageRoutes st beforeTime).1) ∧
    (∀ (p : RIPRouteEntryS → Bool) (now : Nat),
        GarbageInv (startGarbageCollectionFirst st p now).1) ∧
    (∀ (p : RIPRouteEntryS → Bool) (newrt : RIPRouteEntryS) (now : Nat),
        GarbageInv { st with routes := modifyFirst st.routes p (updateRouteEntry newrt now) }) := by
  refine ⟨?_, ?_, ?_, ?_, ?_⟩
  · intro data srcIp now pkt hok
    exact processResponse_garbageInv srcIp now pkt.rtes st hinv
      (packetFromNet_garbage_false data srcIp now pkt hok)
  · intro now beforeTime
    exact checkRouteTimeouts_garbageInv st now beforeTime hinv
  · intro beforeTime
    exact collectGarbage_garbageInv st beforeTime hinv
  · intro p now
    exact startGCFirst_garbageInv st p now hinv
  · intro p newrt now
    exact updateRouteAt_garbageInv st p newrt now hinv

/-- C6 witness: preservation through a timeout scan on a concrete table
holding a garbage route and a live route. -/
theorem c6_claim_witness : GarbageInv (checkRouteTimeouts c6State 10 5) :=
  (c6_claim c6State (by decide)).2.1 10 5
